import Mathlib

/-!
# Verification of the polymarket-rs-client authentication subsystem

A shallow embedding of `src/lib.rs` (the `ClobClient` state and its public
operations) together with models of the repository modules that are not part
of the provided sources (`headers.rs`, `config.rs`, `eth_utils.rs`), which are
modelled from the specification where needed.

Conventions of the embedding:
* Rust `panic!` / `.expect(msg)` is modelled by `RResult.panic msg`;
  a Rust `Err` value by `RResult.err`; `Ok` by `RResult.ok`.
* Wall-clock time is not injectable in the Rust API; every operation that
  captures the current time takes the captured timestamp as an explicit
  parameter `t`.
* The HTTP transport (`reqwest`) is an external collaborator; it is modelled
  by a `Net` oracle mapping the constructed header set to the typed response
  of each endpoint (send + JSON decode combined).
* Machine integers (`u64`, `U256`) are modelled as `Nat`; no claim in scope
  depends on overflow behaviour.
* Bytes are `Nat` values < 256 in `List Nat`.
-/

namespace Clob

/-- The `ApiCreds` triple from `lib.rs`: `{api_key, secret, passphrase}`. -/
structure ApiCreds where
  api_key : String
  secret : String
  passphrase : String
deriving DecidableEq, Repr

/-- Model of the `EthSigner` capability. Modelled from the spec:
`eth_utils.rs` is not in `src/`; per the spec the capability exposes a
20-byte account address and a fallible `sign(message) -> signature bytes`
operation (signing failures are surfaced as typed failures). -/
structure EthSignerM where
  addr : List Nat
  addrLen : addr.length = 20
  sign : List Nat → Except String (List Nat)

/-- The `ClobClient` state from `lib.rs`. The `http_client` field (a stateless
`reqwest::Client` handle) carries no client-visible state and is omitted. -/
structure ClobClient where
  host : String
  signer : Option EthSignerM
  chain_id : Option Nat
  api_creds : Option ApiCreds

/-- Result of running a Rust operation: a panic (unwinding), an `Err`, or `Ok`. -/
inductive RResult (α : Type) where
  | panic (msg : String)
  | err (e : String)
  | ok (v : α)
deriving DecidableEq, Repr

/-- `is_err()` on a Rust `Result`: only `err` counts (a panic is not a value). -/
def RResult.isErr {α : Type} : RResult α → Bool
  | .err _ => true
  | _ => false

/-- Whether the operation aborted by panicking. -/
def RResult.isPanic {α : Type} : RResult α → Bool
  | .panic _ => true
  | _ => false

/-- `ClobClient::new(host)`: all optional fields default to `None`. -/
def ClobClient.new (host : String) : ClobClient :=
  { host := host, signer := none, chain_id := none, api_creds := none }

/-- `ClobClient::with_l1_headers(host, key, chain_id)`. The private-key parse
(`key.parse::<PrivateKeySigner>()`, external `alloy` code) is abstracted as a
`parse` function; `.expect("Invalid private key")` panics when it fails. -/
def with_l1_headers (parse : String → Option EthSignerM)
    (host key : String) (chain_id : Nat) : RResult ClobClient :=
  match parse key with
  | none => .panic "Invalid private key"
  | some s => .ok { host := host, signer := some s, chain_id := some chain_id,
                    api_creds := none }

/-- `ClobClient::with_l2_headers(host, key, chain_id, api_creds)`. -/
def with_l2_headers (parse : String → Option EthSignerM)
    (host key : String) (chain_id : Nat) (api_creds : ApiCreds) : RResult ClobClient :=
  match parse key with
  | none => .panic "Invalid private key"
  | some s => .ok { host := host, signer := some s, chain_id := some chain_id,
                    api_creds := some api_creds }

/-- `set_api_creds(&mut self, api_creds)`: unconditionally stores the triple. -/
def set_api_creds (c : ClobClient) (api_creds : ApiCreds) : ClobClient :=
  { c with api_creds := some api_creds }

/-- `get_l1_parameters`: `.expect` on the signer, then on the chain id. -/
def get_l1_parameters (c : ClobClient) : RResult (EthSignerM × Nat) :=
  match c.signer with
  | none => .panic "Signer is not set"
  | some s =>
    match c.chain_id with
    | none => .panic "Chain id is not set"
    | some cid => .ok (s, cid)

/-- `get_l2_parameters`: `.expect` on the signer, then on the credentials. -/
def get_l2_parameters (c : ClobClient) : RResult (EthSignerM × ApiCreds) :=
  match c.signer with
  | none => .panic "Signer is not set"
  | some s =>
    match c.api_creds with
    | none => .panic "API credentials not set."
    | some creds => .ok (s, creds)

/-- One hex digit, lowercase (as produced by `alloy`'s hex encoding). -/
def hexDigit (n : Nat) : Char :=
  if n < 10 then Char.ofNat (48 + n) else Char.ofNat (87 + n)

/-- Lowercase hex encoding of a byte list. -/
def hexEncode (bs : List Nat) : String :=
  String.mk (bs.flatMap fun b => [hexDigit (b / 16), hexDigit (b % 16)])

/-- `alloy_primitives::hex::encode_prefixed`: lowercase hex with `0x`. -/
def encode_prefixed (bs : List Nat) : String :=
  "0x" ++ hexEncode bs

/-- `get_address`: `Some(encode_prefixed(self.signer.as_ref()?.address()))`. -/
def get_address (c : ClobClient) : Option String :=
  c.signer.map fun s => encode_prefixed s.addr

/-- A contract-registry entry. Modelled from the spec: `config.rs` is not in
`src/`; the spec treats the registry as an external collaborator keyed by
chain id giving the venue's contract addresses. -/
structure ContractConfig where
  exchange : String
  collateral : String
  conditional_tokens : String
deriving DecidableEq, Repr

/-- The registry lookup `config::get_contract_config(chain_id, neg_risk)`,
kept abstract: any partial map from (chain id, neg-risk flag) to a config. -/
def Registry : Type := Nat → Bool → Option ContractConfig

/-- `get_collateral_address`, with the registry passed explicitly. -/
def get_collateral_address (reg : Registry) (c : ClobClient) : Option String :=
  (c.chain_id.bind fun cid => reg cid false).map fun cfg => cfg.collateral

/-- `get_conditional_address`. -/
def get_conditional_address (reg : Registry) (c : ClobClient) : Option String :=
  (c.chain_id.bind fun cid => reg cid false).map fun cfg => cfg.conditional_tokens

/-- `get_exchange_address`. -/
def get_exchange_address (reg : Registry) (c : ClobClient) : Option String :=
  (c.chain_id.bind fun cid => reg cid false).map fun cfg => cfg.exchange

/-- The bytes of an ASCII string (code points; equal to UTF-8 for ASCII). -/
def strBytes (s : String) : List Nat := s.data.map Char.toNat

/-- Truncation to a 32-bit word. -/
def w32 (n : Nat) : Nat := n % 4294967296

/-- 32-bit right rotation (argument assumed < 2^32). -/
def rotr32 (x n : Nat) : Nat := w32 ((x >>> n) ||| (x <<< (32 - n)))

def sha256K : List Nat :=
  [1116352408, 1899447441, 3049323471, 3921009573, 961987163,
   1508970993, 2453635748, 2870763221, 3624381080, 310598401,
   607225278, 1426881987, 1925078388, 2162078206, 2614888103,
   3248222580, 3835390401, 4022224774, 264347078, 604807628,
   770255983, 1249150122, 1555081692, 1996064986, 2554220882,
   2821834349, 2952996808, 3210313671, 3336571891, 3584528711,
   113926993, 338241895, 666307205, 773529912, 1294757372,
   1396182291, 1695183700, 1986661051, 2177026350, 2456956037,
   2730485921, 2820302411, 3259730800, 3345764771, 3516065817,
   3600352804, 4094571909, 275423344, 430227734, 506948616,
   659060556, 883997877, 958139571, 1322822218, 1537002063,
   1747873779, 1955562222, 2024104815, 2227730452, 2361852424,
   2428436474, 2756734187, 3204031479, 3329325298]

def sha256H0 : List Nat :=
  [1779033703, 3144134277, 1013904242, 2773480762, 1359893119,
   2600822924, 528734635, 1541459225]

def lowSigma0 (x : Nat) : Nat := rotr32 x 7 ^^^ rotr32 x 18 ^^^ (x >>> 3)
def lowSigma1 (x : Nat) : Nat := rotr32 x 17 ^^^ rotr32 x 19 ^^^ (x >>> 10)
def upSigma0 (x : Nat) : Nat := rotr32 x 2 ^^^ rotr32 x 13 ^^^ rotr32 x 22
def upSigma1 (x : Nat) : Nat := rotr32 x 6 ^^^ rotr32 x 11 ^^^ rotr32 x 25
def chF (x y z : Nat) : Nat := (x &&& y) ^^^ ((x ^^^ 0xffffffff) &&& z)
def majF (x y z : Nat) : Nat := (x &&& y) ^^^ (x &&& z) ^^^ (y &&& z)

/-- Big-endian 4-byte encoding of a 32-bit word. -/
def be32 (n : Nat) : List Nat :=
  [(n >>> 24) % 256, (n >>> 16) % 256, (n >>> 8) % 256, n % 256]

/-- Big-endian 8-byte encoding of a 64-bit value. -/
def be64 (n : Nat) : List Nat :=
  [(n >>> 56) % 256, (n >>> 48) % 256, (n >>> 40) % 256, (n >>> 32) % 256,
   (n >>> 24) % 256, (n >>> 16) % 256, (n >>> 8) % 256, n % 256]

/-- SHA-256 padding: append 0x80, zeros, and the 64-bit bit length. -/
def padMessage (msg : List Nat) : List Nat :=
  let L := msg.length
  let k := (119 - L % 64) % 64
  msg ++ 0x80 :: List.replicate k 0 ++ be64 (8 * L)

/-- Group a byte list into big-endian 32-bit words. -/
def toWords : List Nat → List Nat
  | a :: b :: c :: d :: rest =>
    ((a <<< 24) ||| (b <<< 16) ||| (c <<< 8) ||| d) :: toWords rest
  | _ => []

/-- Extend the 16-word schedule by `n` further words. -/
def extendSchedule (w : List Nat) : Nat → List Nat
  | 0 => w
  | n + 1 =>
    let t := w.length
    let wt := w32 (lowSigma1 (w.getD (t - 2) 0) + w.getD (t - 7) 0 +
                   lowSigma0 (w.getD (t - 15) 0) + w.getD (t - 16) 0)
    extendSchedule (w ++ [wt]) n

/-- One round of the SHA-256 compression function. -/
def compressStep (st : List Nat) (kw : Nat × Nat) : List Nat :=
  match st with
  | [a, b, c, d, e, f, g, h] =>
    let t1 := w32 (h + upSigma1 e + chF e f g + kw.1 + kw.2)
    let t2 := w32 (upSigma0 a + majF a b c)
    [w32 (t1 + t2), a, b, c, w32 (d + t1), e, f, g]
  | other => other

/-- Compress one 64-byte block into the running hash state. -/
def compressBlock (h : List Nat) (block : List Nat) : List Nat :=
  let w := extendSchedule (toWords block) 48
  let st := (sha256K.zip w).foldl compressStep h
  (h.zip st).map fun p => w32 (p.1 + p.2)

/-- Split into 64-byte chunks (fuel-driven so the kernel can evaluate it;
one unit of fuel per block suffices since each step consumes 64 bytes). -/
def chunks64Go (fuel : Nat) (l : List Nat) : List (List Nat) :=
  match fuel, l with
  | 0, _ => []
  | _, [] => []
  | fuel + 1, l => l.take 64 :: chunks64Go fuel (l.drop 64)

/-- Split into 64-byte chunks. -/
def chunks64 (l : List Nat) : List (List Nat) := chunks64Go l.length l

/-- SHA-256 of a byte list. -/
def sha256 (msg : List Nat) : List Nat :=
  ((chunks64 (padMessage msg)).foldl compressBlock sha256H0).flatMap be32

/-- HMAC-SHA256 (RFC 2104) of a message under a key, both byte lists. -/
def hmacSha256 (key msg : List Nat) : List Nat :=
  let k0 := if key.length > 64 then sha256 key else key
  let k := k0 ++ List.replicate (64 - k0.length) 0
  let ipad := k.map fun b => b ^^^ 0x36
  let opad := k.map fun b => b ^^^ 0x5c
  sha256 (opad ++ sha256 (ipad ++ msg))

/-- Value of one standard-alphabet base64 character. -/
def b64Val (c : Char) : Option Nat :=
  if 65 ≤ c.toNat ∧ c.toNat ≤ 90 then some (c.toNat - 65)
  else if 97 ≤ c.toNat ∧ c.toNat ≤ 122 then some (c.toNat - 71)
  else if 48 ≤ c.toNat ∧ c.toNat ≤ 57 then some (c.toNat + 4)
  else if c = '+' then some 62
  else if c = '/' then some 63
  else none

/-- Reassemble bytes from a list of 6-bit values (padding already stripped). -/
def b64Bytes : List Nat → Option (List Nat)
  | [] => some []
  | [_] => none
  | [a, b] => some [((a <<< 2) ||| (b >>> 4)) % 256]
  | [a, b, c] => some [((a <<< 2) ||| (b >>> 4)) % 256,
                       ((b <<< 4) ||| (c >>> 2)) % 256]
  | a :: b :: c :: d :: rest =>
    (b64Bytes rest).map fun tl =>
      ((a <<< 2) ||| (b >>> 4)) % 256 ::
      ((b <<< 4) ||| (c >>> 2)) % 256 ::
      ((c <<< 6) ||| d) % 256 :: tl

/-- Standard base64 decoding (used on the credential secret). -/
def base64Decode (s : String) : Option (List Nat) :=
  let cs := s.data
  let cs := if cs.getLast? = some '=' then cs.dropLast else cs
  let cs := if cs.getLast? = some '=' then cs.dropLast else cs
  (cs.mapM b64Val).bind b64Bytes

/-- One character of the URL-safe base64 alphabet. -/
def b64uChar (n : Nat) : Char :=
  "ABCDEFGHIJKLMNOPQRSTUVWXYZabcdefghijklmnopqrstuvwxyz0123456789-_".data.getD n 'A'

/-- URL-safe base64 encoding with padding (used on the HMAC output). -/
def b64uEncode : List Nat → String
  | [] => ""
  | [a] => String.mk [b64uChar (a >>> 2), b64uChar ((a <<< 4) % 64), '=', '=']
  | [a, b] => String.mk [b64uChar (a >>> 2), b64uChar (((a <<< 4) ||| (b >>> 4)) % 64),
                         b64uChar ((b <<< 2) % 64), '=']
  | a :: b :: c :: rest =>
    String.mk [b64uChar (a >>> 2), b64uChar (((a <<< 4) ||| (b >>> 4)) % 64),
               b64uChar (((b <<< 2) ||| (c >>> 6)) % 64), b64uChar (c % 64)] ++
    b64uEncode rest

/-- Canonical L1 message. Modelled from the spec: `headers.rs` is not in
`src/`; per the spec the canonical, domain-separated message binds a fixed
purpose literal, the timestamp and the nonce, in a stable layout. -/
def l1CanonicalMessage (t nonce : Nat) : List Nat :=
  strBytes ("L1_AUTH" ++ toString t ++ toString nonce)

/-- `headers::create_l1_headers(signer, nonce)`. Modelled from the spec:
resolve the nonce (default 0 when absent), sign the canonical message, and
emit the signer address, hex-prefixed signature, decimal timestamp and
decimal nonce. The captured timestamp is the explicit parameter `t`. -/
def create_l1_headers (s : EthSignerM) (nonce : Option Nat) (t : Nat) :
    Except String (List (String × String)) :=
  let n := nonce.getD 0
  match s.sign (l1CanonicalMessage t n) with
  | .error e => .error e
  | .ok sig =>
    .ok [("poly_address", encode_prefixed s.addr),
         ("poly_signature", encode_prefixed sig),
         ("poly_timestamp", toString t),
         ("poly_nonce", toString n)]

/-- Canonical L2 string. Modelled from the spec: concatenation of timestamp,
uppercase method, request path, and the body's on-wire form ("" if absent). -/
def l2CanonicalString (t : Nat) (method path : String) (body : Option String) :
    String :=
  toString t ++ method ++ path ++ body.getD ""

/-- The L2 HMAC signature. Modelled from the spec: decode the credential
secret from base64, HMAC-SHA256 the canonical string under the decoded key,
and encode the result with the URL-safe base64 alphabet; a secret that is
not valid base64 is surfaced as a typed failure. -/
def build_hmac_signature (secret : String) (t : Nat) (method path : String)
    (body : Option String) : Except String String :=
  match base64Decode secret with
  | none => .error "Invalid base64 secret"
  | some key =>
    .ok (b64uEncode (hmacSha256 key (strBytes (l2CanonicalString t method path body))))

/-- `headers::create_l2_headers(signer, creds, method, path, body)`. Modelled
from the spec: emit the API key, the computed signature, the passphrase and
the timestamp; per the spec the header values are credential-based and make
no use of the signer argument. -/
def create_l2_headers (s : EthSignerM) (creds : ApiCreds)
    (method path : String) (body : Option String) (t : Nat) :
    Except String (List (String × String)) :=
  match build_hmac_signature creds.secret t method path body with
  | .error e => .error e
  | .ok sig =>
    .ok [("poly_api_key", creds.api_key),
         ("poly_signature", sig),
         ("poly_passphrase", creds.passphrase),
         ("poly_timestamp", toString t)]

/-- The HTTP transport plus JSON decoding, as an oracle from the constructed
header set to each endpoint's typed response. -/
structure Net where
  createResp : List (String × String) → Except String ApiCreds
  deriveResp : List (String × String) → Except String ApiCreds
  apiKeysResp : List (String × String) → Except String (List String)
  deleteResp : List (String × String) → Except String String

/-- `create_api_key(&self, nonce)`: `POST /auth/api-key` under L1 headers. -/
def create_api_key (c : ClobClient) (net : Net) (t : Nat) (nonce : Option Nat) :
    RResult ApiCreds :=
  match get_l1_parameters c with
  | .panic m => .panic m
  | .err e => .err e
  | .ok (signer, _) =>
    match create_l1_headers signer nonce t with
    | .error e => .err e
    | .ok headers =>
      match net.createResp headers with
      | .error e => .err e
      | .ok creds => .ok creds

/-- `derive_api_key(&self, nonce)`: `GET /auth/derive-api-key` under L1 headers. -/
def derive_api_key (c : ClobClient) (net : Net) (t : Nat) (nonce : Option Nat) :
    RResult ApiCreds :=
  match get_l1_parameters c with
  | .panic m => .panic m
  | .err e => .err e
  | .ok (signer, _) =>
    match create_l1_headers signer nonce t with
    | .error e => .err e
    | .ok headers =>
      match net.deriveResp headers with
      | .error e => .err e
      | .ok creds => .ok creds

/-- `create_or_derive_api_key(&self, nonce)`: try `create_api_key`; on an
`Err` result fall back to `derive_api_key` with the same nonce (a panic
unwinds and is not caught). `t` and `t2` are the timestamps the two calls
capture. -/
def create_or_derive_api_key (c : ClobClient) (net : Net) (t t2 : Nat)
    (nonce : Option Nat) : RResult ApiCreds :=
  match create_api_key c net t nonce with
  | .panic m => .panic m
  | .err _ => derive_api_key c net t2 nonce
  | .ok v => .ok v

/-- `get_api_keys(&self)`: `GET /auth/api-keys` under L2 headers. -/
def get_api_keys (c : ClobClient) (net : Net) (t : Nat) : RResult (List String) :=
  match get_l2_parameters c with
  | .panic m => .panic m
  | .err e => .err e
  | .ok (signer, creds) =>
    match create_l2_headers signer creds "GET" "/auth/api-keys" none t with
    | .error e => .err e
    | .ok headers =>
      match net.apiKeysResp headers with
      | .error e => .err e
      | .ok keys => .ok keys

/-- `delete_api_key(&self)`: `DELETE /auth/api-key` under L2 headers. -/
def delete_api_key (c : ClobClient) (net : Net) (t : Nat) : RResult String :=
  match get_l2_parameters c with
  | .panic m => .panic m
  | .err e => .err e
  | .ok (signer, creds) =>
    match create_l2_headers signer creds "DELETE" "/auth/api-key" none t with
    | .error e => .err e
    | .ok headers =>
      match net.deleteResp headers with
      | .error e => .err e
      | .ok body => .ok body

/-- `Side` from `lib.rs`. -/
inductive Side where
  | BUY
  | SELL
deriving DecidableEq, Repr

/-- `BookParams` from `lib.rs`. -/
structure BookParams where
  token_id : String
  side : Side
deriving DecidableEq, Repr

/-- The public operations callable on an already-constructed client. -/
inductive Op where
  | set_api_creds (creds : ApiCreds)
  | create_api_key (nonce : Option Nat)
  | derive_api_key (nonce : Option Nat)
  | create_or_derive_api_key (nonce : Option Nat)
  | get_api_keys
  | delete_api_key
  | get_midpoint (token_id : String)
  | get_midpoints (token_ids : List String)
  | get_price (token_id : String) (side : Side)
  | get_prices (book_params : List BookParams)
  | get_ok
  | get_server_time
  | get_address
  | get_collateral_address
  | get_conditional_address
  | get_exchange_address

/-- The effect of one public operation on the client state. Every method of
`ClobClient` except `set_api_creds` takes the receiver as `&self` (a shared
borrow) and none of `host`, `signer`, `chain_id`, `api_creds` sits behind
interior mutability, so those methods cannot write the state;
`set_api_creds` takes `&mut self` and assigns `self.api_creds`. -/
def applyOp (op : Op) (c : ClobClient) : ClobClient :=
  match op with
  | .set_api_creds creds => set_api_creds c creds
  | .create_api_key _ => c
  | .derive_api_key _ => c
  | .create_or_derive_api_key _ => c
  | .get_api_keys => c
  | .delete_api_key => c
  | .get_midpoint _ => c
  | .get_midpoints _ => c
  | .get_price _ _ => c
  | .get_prices _ => c
  | .get_ok => c
  | .get_server_time => c
  | .get_address => c
  | .get_collateral_address => c
  | .get_conditional_address => c
  | .get_exchange_address => c

/-- The state after a sequence of public operations. -/
def applyOps (ops : List Op) (c : ClobClient) : ClobClient :=
  ops.foldl (fun st op => applyOp op st) c

/-- The request-issuing operations named by the frame claim (everything
public except the credential-set operation and the pure getters). -/
def requestIssuing : Op → Bool
  | .create_api_key _ => true
  | .derive_api_key _ => true
  | .create_or_derive_api_key _ => true
  | .get_api_keys => true
  | .delete_api_key => true
  | .get_midpoint _ => true
  | .get_midpoints _ => true
  | .get_price _ _ => true
  | .get_prices _ => true
  | .get_ok => true
  | .get_server_time => true
  | _ => false

/-- The clients reachable through the public API: one of the three
constructors (`with_l1_headers` / `with_l2_headers` only when the key
parses, i.e. when they return instead of panicking) followed by any
sequence of public operations. -/
inductive Reachable : ClobClient → Prop where
  | mk_new (host : String) : Reachable (ClobClient.new host)
  | mk_l1 (host : String) (s : EthSignerM) (chain_id : Nat) :
      Reachable { host := host, signer := some s, chain_id := some chain_id,
                  api_creds := none }
  | mk_l2 (host : String) (s : EthSignerM) (chain_id : Nat) (creds : ApiCreds) :
      Reachable { host := host, signer := some s, chain_id := some chain_id,
                  api_creds := some creds }
  | step (c : ClobClient) (op : Op) : Reachable c → Reachable (applyOp op c)

/-! ## Concrete fixtures used by witnesses and counterexamples -/

/-- A concrete signer: the zero address, signing by returning the message. -/
def sampleSigner : EthSignerM :=
  { addr := List.replicate 20 0, addrLen := by simp, sign := fun m => .ok m }

/-- A second concrete signer with a different address and signature scheme. -/
def sampleSigner2 : EthSignerM :=
  { addr := List.replicate 20 1, addrLen := by simp, sign := fun _ => .ok [] }

/-- The credential triple of the spec's L2 example scenario. -/
def sampleCreds : ApiCreds :=
  { api_key := "k", secret := "c2VjcmV0", passphrase := "p" }

/-- A transport oracle whose create endpoint fails and the others succeed. -/
def sampleNet : Net :=
  { createResp := fun _ => .error "boom"
    deriveResp := fun _ => .ok sampleCreds
    apiKeysResp := fun _ => .ok []
    deleteResp := fun _ => .ok "OK" }

/-- A wallet-only client (signer and chain id set, no credential). -/
def sampleWalletClient : ClobClient :=
  { host := "h", signer := some sampleSigner, chain_id := some 137,
    api_creds := none }

/-! ## Shared frame lemmas about `applyOp` -/

/-- No public operation writes the signer field. -/
theorem applyOp_signer (op : Op) (c : ClobClient) :
    (applyOp op c).signer = c.signer := by
  cases op <;> rfl

/-- No public operation writes the chain-id field. -/
theorem applyOp_chain_id (op : Op) (c : ClobClient) :
    (applyOp op c).chain_id = c.chain_id := by
  cases op <;> rfl

/-- A set credential stays set across every public operation. -/
theorem applyOp_api_creds_isSome (op : Op) (c : ClobClient)
    (h : c.api_creds.isSome) : (applyOp op c).api_creds.isSome := by
  cases op <;> simp_all [applyOp, set_api_creds]

/-! ## Claims -/

/-- C1: for every nonce, if `create_api_key` returns an `Err`, then
`create_or_derive_api_key` returns exactly the result of `derive_api_key`
with the same nonce (never the first error); if it returns `Ok`, that result
is returned unchanged. -/
theorem C1_create_or_derive_fallback (c : ClobClient) (net : Net) (t t2 : Nat)
    (nonce : Option Nat) :
    (∀ e, create_api_key c net t nonce = .err e →
      create_or_derive_api_key c net t t2 nonce = derive_api_key c net t2 nonce) ∧
    (∀ v, create_api_key c net t nonce = .ok v →
      create_or_derive_api_key c net t t2 nonce = .ok v) := by
  constructor
  · intro e he
    simp [create_or_derive_api_key, he]
  · intro v hv
    simp [create_or_derive_api_key, hv]

/-- C1 witness: on a wallet-only client whose create endpoint fails, the
composite call returns the derive result. -/
theorem C1_create_or_derive_fallback_witness :
    create_or_derive_api_key sampleWalletClient sampleNet 1 2 (some 5) =
      derive_api_key sampleWalletClient sampleNet 2 (some 5) :=
  (C1_create_or_derive_fallback sampleWalletClient sampleNet 1 2 (some 5)).1
    "boom" rfl

/-- C4: every L1 operation panics (aborts) when no signing key is configured
and every L2 operation panics when no API credential is configured, for every
transport oracle — so no request is ever sent under a violated precondition. -/
theorem C4_precondition_abort (c : ClobClient) (net : Net) (t : Nat)
    (nonce : Option Nat) :
    (c.signer = none →
      create_api_key c net t nonce = .panic "Signer is not set" ∧
      derive_api_key c net t nonce = .panic "Signer is not set" ∧
      ∀ t2, create_or_derive_api_key c net t t2 nonce =
        .panic "Signer is not set") ∧
    (c.api_creds = none →
      (get_api_keys c net t).isPanic = true ∧
      (delete_api_key c net t).isPanic = true) := by
  constructor
  · intro h
    refine ⟨?_, ?_, fun t2 => ?_⟩ <;>
      simp [create_api_key, derive_api_key, create_or_derive_api_key,
            get_l1_parameters, h]
  · intro h
    cases hs : c.signer <;>
      simp [get_api_keys, delete_api_key, get_l2_parameters, RResult.isPanic,
            h, hs]

/-- C4 witness: on a fresh unauthenticated client both an L1 and an L2
operation abort. -/
theorem C4_precondition_abort_witness :
    create_api_key (ClobClient.new "h") sampleNet 1 none =
      .panic "Signer is not set" ∧
    (get_api_keys (ClobClient.new "h") sampleNet 1).isPanic = true :=
  ⟨((C4_precondition_abort (ClobClient.new "h") sampleNet 1 none).1 rfl).1,
   ((C4_precondition_abort (ClobClient.new "h") sampleNet 1 none).2 rfl).1⟩

/-- C2 counterexample: a reachable client with a credential but no signing
key exists (`new` then `set_api_creds`), and on it the L2 operation panics
for the missing signer — so L2 header construction does require a signing
key to be present (`get_l2_parameters` unwraps the signer first). -/
theorem C2_counterexample :
    Reachable (set_api_creds (ClobClient.new "h") sampleCreds) ∧
    get_api_keys (set_api_creds (ClobClient.new "h") sampleCreds) sampleNet 1 =
      .panic "Signer is not set" :=
  ⟨Reachable.step _ (.set_api_creds sampleCreds) (Reachable.mk_new "h"), rfl⟩

/-- C2 (amended): the L2 header values depend only on the credential, method,
path, body and timestamp — two clients that differ only in their signing key
construct identical L2 header sets and get identical L2 results — but the L2
operations do require a signing key to be present: they panic when it is
absent. -/
theorem C2_l2_signer_independence (host : String) (chain : Option Nat)
    (creds : ApiCreds) (s1 s2 : EthSignerM) (net : Net) (t : Nat) :
    (∀ method path body, create_l2_headers s1 creds method path body t =
      create_l2_headers s2 creds method path body t) ∧
    get_api_keys { host := host, signer := some s1, chain_id := chain,
                   api_creds := some creds } net t =
      get_api_keys { host := host, signer := some s2, chain_id := chain,
                     api_creds := some creds } net t ∧
    delete_api_key { host := host, signer := some s1, chain_id := chain,
                     api_creds := some creds } net t =
      delete_api_key { host := host, signer := some s2, chain_id := chain,
                       api_creds := some creds } net t ∧
    (∀ c : ClobClient, c.signer = none →
      get_api_keys c net t = .panic "Signer is not set" ∧
      delete_api_key c net t = .panic "Signer is not set") := by
  refine ⟨fun _ _ _ => rfl, rfl, rfl, fun c hc => ?_⟩
  constructor <;> simp [get_api_keys, delete_api_key, get_l2_parameters, hc]

/-- C2 witness: two concrete clients differing only in the signer produce the
same L2 result, and a concrete signerless client panics. -/
theorem C2_l2_signer_independence_witness :
    get_api_keys { host := "h", signer := some sampleSigner,
                   chain_id := some 137, api_creds := some sampleCreds }
        sampleNet 1 =
      get_api_keys { host := "h", signer := some sampleSigner2,
                     chain_id := some 137, api_creds := some sampleCreds }
        sampleNet 1 ∧
    get_api_keys (ClobClient.new "h") sampleNet 1 = .panic "Signer is not set" :=
  ⟨(C2_l2_signer_independence "h" (some 137) sampleCreds sampleSigner
      sampleSigner2 sampleNet 1).2.1,
   ((C2_l2_signer_independence "h" (some 137) sampleCreds sampleSigner
      sampleSigner2 sampleNet 1).2.2.2 (ClobClient.new "h") rfl).1⟩

/-- The three authentication states asserted by the claim: unauthenticated
(nothing set), wallet-only (signer and chain id, no credential), fully
authenticated (all three). -/
def ThreeState (c : ClobClient) : Prop :=
  (c.signer = none ∧ c.chain_id = none ∧ c.api_creds = none) ∨
  (c.signer.isSome ∧ c.chain_id.isSome ∧ c.api_creds = none) ∨
  (c.signer.isSome ∧ c.chain_id.isSome ∧ c.api_creds.isSome)

/-- C3 counterexample: `set_api_creds` applies to any instance, not only a
wallet-only one, so `new` followed by `set_api_creds` reaches a client with a
credential set but no signing key — outside all three claimed states. -/
theorem C3_counterexample :
    Reachable (set_api_creds (ClobClient.new "h") sampleCreds) ∧
    ¬ ThreeState (set_api_creds (ClobClient.new "h") sampleCreds) ∧
    (set_api_creds (ClobClient.new "h") sampleCreds).api_creds.isSome = true ∧
    (set_api_creds (ClobClient.new "h") sampleCreds).signer = none := by
  refine ⟨Reachable.step _ (.set_api_creds sampleCreds) (Reachable.mk_new "h"),
          ?_, rfl, rfl⟩
  simp [ThreeState, set_api_creds, ClobClient.new]

/-- C3 (amended): every reachable client has the signing key and chain id
either both set or both unset, and is in exactly one of FOUR states: the
three claimed ones, or credential-set-without-wallet (reachable because
`set_api_creds` applies to any instance, not only a wallet-only one). -/
theorem C3_reachable_four_states (c : ClobClient) (h : Reachable c) :
    c.signer.isSome = c.chain_id.isSome ∧
    (ThreeState c ∨
      (c.signer = none ∧ c.chain_id = none ∧ c.api_creds.isSome)) := by
  induction h with
  | mk_new host => exact ⟨rfl, Or.inl (Or.inl ⟨rfl, rfl, rfl⟩)⟩
  | mk_l1 host s chain_id =>
    exact ⟨rfl, Or.inl (Or.inr (Or.inl ⟨rfl, rfl, rfl⟩))⟩
  | mk_l2 host s chain_id creds =>
    exact ⟨rfl, Or.inl (Or.inr (Or.inr ⟨rfl, rfl, rfl⟩))⟩
  | step c op hc ih =>
    obtain ⟨h1, h2⟩ := ih
    cases op with
    | set_api_creds creds =>
      refine ⟨h1, ?_⟩
      rcases h2 with (⟨a, b, d⟩ | ⟨a, b, d⟩ | ⟨a, b, d⟩) | ⟨a, b, d⟩
      · exact Or.inr ⟨a, b, rfl⟩
      · exact Or.inl (Or.inr (Or.inr ⟨a, b, rfl⟩))
      · exact Or.inl (Or.inr (Or.inr ⟨a, b, rfl⟩))
      · exact Or.inr ⟨a, b, rfl⟩
    | create_api_key nonce => exact ⟨h1, h2⟩
    | derive_api_key nonce => exact ⟨h1, h2⟩
    | create_or_derive_api_key nonce => exact ⟨h1, h2⟩
    | get_api_keys => exact ⟨h1, h2⟩
    | delete_api_key => exact ⟨h1, h2⟩
    | get_midpoint token_id => exact ⟨h1, h2⟩
    | get_midpoints token_ids => exact ⟨h1, h2⟩
    | get_price token_id side => exact ⟨h1, h2⟩
    | get_prices book_params => exact ⟨h1, h2⟩
    | get_ok => exact ⟨h1, h2⟩
    | get_server_time => exact ⟨h1, h2⟩
    | get_address => exact ⟨h1, h2⟩
    | get_collateral_address => exact ⟨h1, h2⟩
    | get_conditional_address => exact ⟨h1, h2⟩
    | get_exchange_address => exact ⟨h1, h2⟩

/-- C3 witness: the amended statement applied to a concrete reachable
client (a wallet-only construction). -/
theorem C3_reachable_four_states_witness :
    sampleWalletClient.signer.isSome = sampleWalletClient.chain_id.isSome ∧
    (ThreeState sampleWalletClient ∨
      (sampleWalletClient.signer = none ∧ sampleWalletClient.chain_id = none ∧
        sampleWalletClient.api_creds.isSome)) :=
  C3_reachable_four_states sampleWalletClient
    (Reachable.mk_l1 "h" sampleSigner 137)

set_option maxRecDepth 20000 in
/-- SHA-256 of "abc": the standard FIPS 180 test vector, confirming the
compression function, schedule and padding of the embedded hash. -/
theorem sha256_abc_vector :
    sha256 (strBytes "abc") =
      [186, 120, 22, 191, 143, 1, 207, 234, 65, 65,
       64, 222, 93, 174, 34, 35, 176, 3, 97, 163,
       150, 23, 122, 156, 180, 16, 255, 97, 242, 0,
       21, 173] := by decide

set_option maxRecDepth 20000 in
/-- HMAC-SHA256 RFC 4231 test case 2 (key "Jefe"), confirming the embedded
HMAC against the standard vectors as the spec's testable properties ask. -/
theorem hmacSha256_rfc4231_case2 :
    hmacSha256 (strBytes "Jefe") (strBytes "what do ya want for nothing?") =
      [91, 220, 193, 70, 191, 96, 117, 78, 106, 4,
       36, 38, 8, 149, 117, 199, 90, 0, 63, 8,
       157, 39, 57, 131, 157, 236, 88, 185, 100, 236,
       56, 67] := by decide

set_option maxRecDepth 20000 in
/-- The spec's hard-coded L2 vector at the concrete timestamp 1700000000:
HMAC-SHA256("secret", "1700000000GET/orders"), URL-safe base64 encoded. -/
theorem l2_signature_concrete_vector :
    build_hmac_signature "c2VjcmV0" 1700000000 "GET" "/orders" none =
      .ok "5pq6uRxdFFvJzbzIJRObr9401649NDsVtb6H2TgxZRY=" := by
  have h : (build_hmac_signature "c2VjcmV0" 1700000000 "GET" "/orders"
      none).toOption = some "5pq6uRxdFFvJzbzIJRObr9401649NDsVtb6H2TgxZRY=" := by
    decide
  cases he : build_hmac_signature "c2VjcmV0" 1700000000 "GET" "/orders" none with
  | error e => rw [he] at h; cases h
  | ok v => rw [he] at h; simp [Except.toOption] at h; rw [h]

/-- C5: for the credential {api_key "k", secret "c2VjcmV0", passphrase "p"},
method GET, path "/orders", no body and any timestamp `t`, the emitted L2
signature is the URL-safe base64 encoding of HMAC-SHA256 keyed by the bytes
of "secret" (the base64 decoding of the secret field) over the concatenation
of `t`, "GET" and "/orders" in that order. -/
theorem C5_l2_signature_vector (s : EthSignerM) (t : Nat) :
    create_l2_headers s { api_key := "k", secret := "c2VjcmV0",
                          passphrase := "p" } "GET" "/orders" none t =
      .ok [("poly_api_key", "k"),
           ("poly_signature", b64uEncode (hmacSha256 (strBytes "secret")
              (strBytes (toString t ++ "GET" ++ "/orders")))),
           ("poly_passphrase", "p"),
           ("poly_timestamp", toString t)] := by
  have hdec : base64Decode "c2VjcmV0" = some (strBytes "secret") := by decide
  simp [create_l2_headers, build_hmac_signature, l2CanonicalString, hdec,
        String.append_empty]

/-- State after a sequence of public operations: the signer is never written. -/
theorem applyOps_signer (ops : List Op) (c : ClobClient) :
    (applyOps ops c).signer = c.signer := by
  induction ops generalizing c with
  | nil => rfl
  | cons op ops ih =>
    have hstep : applyOps (op :: ops) c = applyOps ops (applyOp op c) := rfl
    rw [hstep, ih, applyOp_signer]

/-- State after a sequence of public operations: the chain id is never
written. -/
theorem applyOps_chain_id (ops : List Op) (c : ClobClient) :
    (applyOps ops c).chain_id = c.chain_id := by
  induction ops generalizing c with
  | nil => rfl
  | cons op ops ih =>
    have hstep : applyOps (op :: ops) c = applyOps ops (applyOp op c) := rfl
    rw [hstep, ih, applyOp_chain_id]

/-- State after a sequence of public operations: a set credential stays set. -/
theorem applyOps_api_creds_isSome (ops : List Op) (c : ClobClient)
    (h : c.api_creds.isSome) : (applyOps ops c).api_creds.isSome := by
  induction ops generalizing c with
  | nil => exact h
  | cons op ops ih =>
    have hstep : applyOps (op :: ops) c = applyOps ops (applyOp op c) := rfl
    rw [hstep]
    exact ih (applyOp op c) (applyOp_api_creds_isSome op c h)

/-- C6: across every sequence of public operations, a signer, chain id or
credential that is set is never removed (no logout primitive). -/
theorem C6_no_logout (ops : List Op) (c : ClobClient) :
    (c.signer.isSome → (applyOps ops c).signer.isSome) ∧
    (c.chain_id.isSome → (applyOps ops c).chain_id.isSome) ∧
    (c.api_creds.isSome → (applyOps ops c).api_creds.isSome) :=
  ⟨fun h => by rw [applyOps_signer]; exact h,
   fun h => by rw [applyOps_chain_id]; exact h,
   fun h => applyOps_api_creds_isSome ops c h⟩

/-- C6 witness: a fully configured client keeps all three fields set across a
concrete operation sequence that includes a credential re-set. -/
theorem C6_no_logout_witness :
    (applyOps [Op.get_api_keys, Op.set_api_creds sampleCreds,
               Op.delete_api_key]
      { host := "h", signer := some sampleSigner, chain_id := some 137,
        api_creds := some sampleCreds }).signer.isSome = true ∧
    (applyOps [Op.get_api_keys, Op.set_api_creds sampleCreds,
               Op.delete_api_key]
      { host := "h", signer := some sampleSigner, chain_id := some 137,
        api_creds := some sampleCreds }).api_creds.isSome = true :=
  ⟨(C6_no_logout [Op.get_api_keys, Op.set_api_creds sampleCreds,
      Op.delete_api_key]
      { host := "h", signer := some sampleSigner, chain_id := some 137,
        api_creds := some sampleCreds }).1 rfl,
   (C6_no_logout [Op.get_api_keys, Op.set_api_creds sampleCreds,
      Op.delete_api_key]
      { host := "h", signer := some sampleSigner, chain_id := some 137,
        api_creds := some sampleCreds }).2.2 rfl⟩

/-- C7: every request-issuing operation leaves the whole client state
unchanged; any public operation either leaves the state unchanged or is the
credential-set operation, and that operation writes only `api_creds`. -/
theorem C7_request_ops_frame (op : Op) (c : ClobClient) :
    (requestIssuing op = true → applyOp op c = c) ∧
    (applyOp op c = c ∨ ∃ creds, op = Op.set_api_creds creds) ∧
    (∀ creds, applyOp (Op.set_api_creds creds) c =
      { host := c.host, signer := c.signer, chain_id := c.chain_id,
        api_creds := some creds }) := by
  refine ⟨fun h => ?_, ?_, fun creds => rfl⟩
  · cases op <;> first | rfl | simp [requestIssuing] at h
  · cases op
    case set_api_creds creds => exact Or.inr ⟨creds, rfl⟩
    all_goals exact Or.inl rfl

/-- C7 witness: a concrete request-issuing operation leaves a concrete
client unchanged. -/
theorem C7_request_ops_frame_witness :
    applyOp Op.get_api_keys sampleWalletClient = sampleWalletClient :=
  (C7_request_ops_frame Op.get_api_keys sampleWalletClient).1 rfl

/-- C8: each contract-address getter returns `none` exactly when the chain id
is unset or unknown to the registry, and otherwise returns the registry's
corresponding address for that chain id. -/
theorem C8_contract_addresses (reg : Registry) (c : ClobClient) :
    (get_collateral_address reg c = none ↔
      c.chain_id = none ∨ ∃ cid, c.chain_id = some cid ∧ reg cid false = none) ∧
    (get_conditional_address reg c = none ↔
      c.chain_id = none ∨ ∃ cid, c.chain_id = some cid ∧ reg cid false = none) ∧
    (get_exchange_address reg c = none ↔
      c.chain_id = none ∨ ∃ cid, c.chain_id = some cid ∧ reg cid false = none) ∧
    (∀ cid cfg, c.chain_id = some cid → reg cid false = some cfg →
      get_collateral_address reg c = some cfg.collateral ∧
      get_conditional_address reg c = some cfg.conditional_tokens ∧
      get_exchange_address reg c = some cfg.exchange) := by
  cases hc : c.chain_id with
  | none =>
    refine ⟨?_, ?_, ?_, ?_⟩ <;>
      simp [get_collateral_address, get_conditional_address,
            get_exchange_address, hc]
  | some cid =>
    cases hr : reg cid false with
    | none =>
      refine ⟨?_, ?_, ?_, fun cid2 cfg h1 h2 => ?_⟩
      · simp [get_collateral_address, hc, hr]
      · simp [get_conditional_address, hc, hr]
      · simp [get_exchange_address, hc, hr]
      · injection h1 with h1
        subst h1
        exact Option.noConfusion (hr ▸ h2)
    | some cfg =>
      refine ⟨?_, ?_, ?_, fun cid2 cfg2 h1 h2 => ?_⟩
      · simp [get_collateral_address, hc, hr]
      · simp [get_conditional_address, hc, hr]
      · simp [get_exchange_address, hc, hr]
      · injection h1 with h1
        subst h1
        rw [hr] at h2
        injection h2 with h2
        subst h2
        exact ⟨by simp [get_collateral_address, hc, hr],
               by simp [get_conditional_address, hc, hr],
               by simp [get_exchange_address, hc, hr]⟩

/-- A concrete registry entry used by the C8 witness. -/
def sampleConfig : ContractConfig :=
  { exchange := "0xexchange", collateral := "0xcollateral",
    conditional_tokens := "0xconditional" }

/-- A concrete registry knowing only chain id 137. -/
def sampleRegistry : Registry :=
  fun cid _ => if cid = 137 then some sampleConfig else none

/-- C8 witness: on a client with chain id 137 and a registry knowing 137, the
three getters return the registry's addresses; with an unset chain id they
return `none`. -/
theorem C8_contract_addresses_witness :
    (get_collateral_address sampleRegistry sampleWalletClient =
      some sampleConfig.collateral ∧
     get_conditional_address sampleRegistry sampleWalletClient =
      some sampleConfig.conditional_tokens ∧
     get_exchange_address sampleRegistry sampleWalletClient =
      some sampleConfig.exchange) ∧
    get_collateral_address sampleRegistry (ClobClient.new "h") = none :=
  ⟨(C8_contract_addresses sampleRegistry sampleWalletClient).2.2.2 137
      sampleConfig rfl (by simp [sampleRegistry]),
   (C8_contract_addresses sampleRegistry (ClobClient.new "h")).1.mpr
      (Or.inl rfl)⟩

/-- C9: `get_address` returns `none` exactly when no signing key is
configured, and otherwise the signer's 20-byte address hex-encoded with the
fixed "0x" prefix. -/
theorem C9_get_address (c : ClobClient) :
    (get_address c = none ↔ c.signer = none) ∧
    (∀ s, c.signer = some s →
      get_address c = some ("0x" ++ hexEncode s.addr) ∧ s.addr.length = 20) := by
  constructor
  · cases hs : c.signer <;> simp [get_address, hs]
  · intro s hs
    exact ⟨by simp [get_address, hs, encode_prefixed], s.addrLen⟩

/-- C9 witness: on a concrete wallet-only client, `get_address` is the
0x-prefixed hex encoding of the signer's 20-byte address. -/
theorem C9_get_address_witness :
    get_address sampleWalletClient =
      some ("0x" ++ hexEncode sampleSigner.addr) ∧
    sampleSigner.addr.length = 20 :=
  (C9_get_address sampleWalletClient).2 sampleSigner rfl

/-- C10: both wallet constructors panic ("Invalid private key") exactly when
the key string does not parse as a private key, and return the fully
constructed client when it does. -/
theorem C10_constructor_panics (parse : String → Option EthSignerM)
    (host key : String) (chain_id : Nat) (creds : ApiCreds) :
    (parse key = none →
      with_l1_headers parse host key chain_id = .panic "Invalid private key" ∧
      with_l2_headers parse host key chain_id creds =
        .panic "Invalid private key") ∧
    (∀ s, parse key = some s →
      with_l1_headers parse host key chain_id =
        .ok { host := host, signer := some s, chain_id := some chain_id,
              api_creds := none } ∧
      with_l2_headers parse host key chain_id creds =
        .ok { host := host, signer := some s, chain_id := some chain_id,
              api_creds := some creds }) := by
  constructor
  · intro h
    exact ⟨by simp [with_l1_headers, h], by simp [with_l2_headers, h]⟩
  · intro s h
    exact ⟨by simp [with_l1_headers, h], by simp [with_l2_headers, h]⟩

/-- A concrete parse function accepting exactly the key string "good". -/
def sampleParse : String → Option EthSignerM :=
  fun k => if k = "good" then some sampleSigner else none

/-- C10 witness: a non-parsing key panics the constructor, a parsing key
yields the constructed client. -/
theorem C10_constructor_panics_witness :
    with_l1_headers sampleParse "h" "bad" 137 = .panic "Invalid private key" ∧
    with_l1_headers sampleParse "h" "good" 137 =
      .ok { host := "h", signer := some sampleSigner, chain_id := some 137,
            api_creds := none } :=
  ⟨((C10_constructor_panics sampleParse "h" "bad" 137 sampleCreds).1
      (by simp [sampleParse])).1,
   ((C10_constructor_panics sampleParse "h" "good" 137 sampleCreds).2
      sampleSigner (by simp [sampleParse])).1⟩

end Clob
